import Mathlib

/-!
Verification of the read-the-delta normalization and publish pipeline.

This file is a shallow embedding, in Lean 4, of the pure computational core of
the pipeline scripts:

  * `scripts/fetch_bls.mjs` (the ingestor: series lookup, derived inflation
    metrics, deltas, 24-month trend assembly with null padding, the
    more-than-12-nulls guardrail, 12-month averages);
  * `scripts/write_update.mjs` (the writer: comparison assembly, history
    ledger, deterministic sentence templates and headline construction, the
    force-injected signal sentence);
  * `scripts/review_update.mjs` (the reviewer: style linter over critical and
    warning patterns, the exact signal-sentence check).

Modelling conventions:

  * JS numbers are modelled as `ℚ` (all values flowing through the pipeline
    are decimal; binary floating-point error is not load-bearing for any
    property proved here).
  * JS `null`/`undefined`-able values are `Option`; a JS object used as a
    string-keyed map is an association list `List (String × α)` looked up
    with `alookup` (keys of a JS object are unique, so first-binding-wins
    lookup agrees with object access).
  * `Math.round` is `jsRound q = ⌊q + 1/2⌋`, which is exactly the JS
    semantics (round half toward positive infinity).
  * `process.exit(1)` before any file write is modelled by returning
    `Except.error`; a successfully computed (hence written) normalized
    snapshot is `Except.ok`.

The `semireducible` attributes below undo the `@[irreducible]` marking of
the rational arithmetic operations so that concrete runs of the embedded
pipeline reduce inside the kernel (`decide`); they do not change any
definition.
-/

set_option allowUnsafeReducibility true
attribute [semireducible] Rat.add Rat.mul Rat.inv Rat.sub Rat.normalize Rat.ofScientific

namespace RTD

/-- JS `Math.round`: round half toward positive infinity. -/
def jsRound (q : ℚ) : ℤ := ⌊q + 1/2⌋

/-- `Math.round(x * 10^p) / 10^p`, the rounding-to-`p`-decimals idiom used
throughout the scripts. -/
def roundTo (q : ℚ) (p : ℕ) : ℚ := (jsRound (q * 10 ^ p) : ℚ) / 10 ^ p

/-- A calendar year-month, the `YYYY-MM` reference period of the scripts. -/
structure Period where
  year : ℤ
  month : ℤ
deriving DecidableEq

/-- The `while (month <= 0) { month += 12; year -= 1 }` rollover loop shared
by `monthsAgo` of fetch_bls.mjs and the inline arithmetic of
`loadNormalizedHistory`.  Fuel-based so that it reduces in the kernel;
`monthsAgo` supplies sufficient fuel for the loop to run to completion. -/
def rollback : ℕ → ℤ → ℤ → Period
  | 0, y, m => ⟨y, m⟩
  | fuel + 1, y, m => if m ≤ 0 then rollback fuel (y - 1) (m + 12) else ⟨y, m⟩

/-- `monthsAgo(yyyymm, n)` of fetch_bls.mjs: the period `n` months earlier. -/
def monthsAgo (p : Period) (n : ℤ) : Period :=
  rollback (1 - (p.month - n)).toNat p.year (p.month - n)

/-- A structured metric value as stored in normalized snapshots:
`{ raw_value, display_value, unit, scale, precision }`.  The string `unit`
and the `scale` play no role in any computation modelled here and are
elided. -/
structure StructuredMetric where
  raw_value : ℚ
  display_value : ℚ
  precision : ℕ
deriving DecidableEq

/-- A JS object mapping metric keys to structured metrics. -/
abbrev MetricsMap := List (String × StructuredMetric)

/-- First-binding-wins association lookup, the model of JS `obj[key]`. -/
def alookup {α : Type} : List (String × α) → String → Option α
  | [], _ => none
  | (k, v) :: rest, key => if k = key then some v else alookup rest key

/-- A trend slot: a display value or `null`. -/
abbrev Value := Option ℚ

/-- `TREND_LENGTH` of fetch_bls.mjs. -/
def TREND_LENGTH : ℕ := 24

/-- `padTrend` of fetch_bls.mjs: take the last 24 values if 24 or more are
given (`values.slice(-TREND_LENGTH)`), otherwise left-pad with `null` to
exactly 24. -/
def padTrend (values : List Value) : List Value :=
  if TREND_LENGTH ≤ values.length then
    values.drop (values.length - TREND_LENGTH)
  else
    List.replicate (TREND_LENGTH - values.length) none ++ values

/-- `loadNormalizedHistory` of fetch_bls.mjs.  The directory of previously
written normalized snapshot files is modelled by
`fs : Period → Option MetricsMap`: each snapshot file is represented by its
`metrics` object, the only field the trend computation reads, and a missing
or unreadable file is `none`.  The loop walks `i = monthsNeeded, …, 1` and
pushes the snapshot at `current − i` months, so the result is oldest-first
and has length exactly `monthsNeeded`. -/
def loadNormalizedHistory (fs : Period → Option MetricsMap) (current : Period)
    (monthsNeeded : ℕ) : List (Option MetricsMap) :=
  (List.range monthsNeeded).map (fun j => fs (monthsAgo current (monthsNeeded - j : ℕ)))

/-- The per-key extraction inside the trend loop of `computeNormalized`:
a `null` history slot gives `null`, a snapshot whose `metrics` object lacks
the key gives `null`, otherwise the metric's `display_value`. -/
def historicalValues (history : List (Option MetricsMap)) (key : String) :
    List Value :=
  history.map (fun h => h.bind (fun ms => (alookup ms key).map (·.display_value)))

/-- The trend map built by `computeNormalized`: for each current metric key,
the 23 historical display values followed by the current display value,
padded to exactly 24 slots. -/
def computeTrends (history : List (Option MetricsMap)) (metrics : MetricsMap) :
    List (String × List Value) :=
  metrics.map (fun km =>
    (km.1, padTrend (historicalValues history km.1 ++ [some km.2.display_value])))

/-- `trendValues.filter(v => v === null).length` of the guardrail loop. -/
def nullCount (t : List Value) : ℕ := (t.filter (· = none)).length

/-- The delta map of `computeNormalized`: for each current metric whose key
has a prior published display value, the difference rounded at the metric's
precision; keys with no prior value are absent from the result. -/
def computeDeltas (metrics : MetricsMap) (priorMetrics : List (String × ℚ)) :
    MetricsMap :=
  metrics.filterMap (fun km =>
    (alookup priorMetrics km.1).map (fun prior =>
      let delta_raw := km.2.display_value - prior
      (km.1, ⟨delta_raw, roundTo delta_raw km.2.precision, km.2.precision⟩)))

/-- The 12-month-average map of `computeNormalized`: the last 12 trend slots
with nulls removed, averaged and rounded, omitted when all 12 are null.
(The script looks the precision up in the per-dataset metric definitions;
we read it off the metric itself, which carries the same configured
precision, defaulting like the script does when the key is unknown.) -/
def twelveMonthAvg (trends : List (String × List Value)) (metrics : MetricsMap) :
    List (String × ℚ) :=
  trends.filterMap (fun kt =>
    let last12 := (kt.2.drop (kt.2.length - 12)).filterMap id
    if last12.length > 0 then
      let avg := last12.sum / (last12.length : ℚ)
      let prec := ((alookup metrics kt.1).map (·.precision)).getD 1
      some (kt.1, roundTo avg prec)
    else none)

/-- A normalized snapshot as written by `computeNormalized` (the computed
fields; timestamps and display names elided). -/
structure NormalizedSnapshot where
  reference_period : Period
  metrics : MetricsMap
  deltas : MetricsMap
  twelve_month_average : List (String × ℚ)
  trend : List (String × List Value)
deriving DecidableEq

/-- `computeNormalized` of fetch_bls.mjs, from the point where the current
period's metrics map has been computed.  `Except.error` models
`process.exit(1)` (or a thrown error) before any file is written: first the
defensive per-key trend-length check (`throw` when a padded trend is not
exactly 24 long), then the guardrail (`ABORT` naming the first key whose
trend has more than 12 nulls).  `Except.ok` carries the snapshot that
`saveData` subsequently writes. -/
def computeNormalized (fs : Period → Option MetricsMap) (current : Period)
    (metrics : MetricsMap) (priorMetrics : List (String × ℚ)) :
    Except String NormalizedSnapshot :=
  if (computeTrends (loadNormalizedHistory fs current 23) metrics).any
      (fun kt => kt.2.length ≠ TREND_LENGTH) then
    .error "trend length mismatch"
  else
    match (computeTrends (loadNormalizedHistory fs current 23) metrics).find?
        (fun kt => 12 < nullCount kt.2) with
    | some kt => .error ("ABORT: Trend for " ++ kt.1 ++ " has too many null values")
    | none =>
        .ok { reference_period := current
              metrics := metrics
              deltas := computeDeltas metrics priorMetrics
              twelve_month_average :=
                twelveMonthAvg (computeTrends (loadNormalizedHistory fs current 23) metrics) metrics
              trend := computeTrends (loadNormalizedHistory fs current 23) metrics }

/-- `true` exactly when null slots occur only as a contiguous leading run:
after dropping the leading nulls, every remaining slot is non-null. -/
def leadingNullsOnly (t : List Value) : Bool :=
  (t.dropWhile (fun v => v = none)).all (fun v => v ≠ none)

/-- An empty snapshot store: no prior normalized file exists. -/
def fsEmpty : Period → Option MetricsMap := fun _ => none

/-- A full snapshot store: every month has a snapshot carrying metric `m`. -/
def fsFull : Period → Option MetricsMap := fun _ => some [("m", ⟨1, 1, 0⟩)]

/-- A snapshot store with a single missing month (2025-11): the month two
steps before `p0`. -/
def fsGap : Period → Option MetricsMap := fun p =>
  if p = ⟨2025, 11⟩ then none else some [("m", ⟨1, 1, 0⟩)]

/-- A one-metric current metrics map used by concrete runs. -/
def ms0 : MetricsMap := [("m", ⟨1, 1, 0⟩)]

/-- The current reference period used by concrete runs. -/
def p0 : Period := ⟨2026, 1⟩

/-- One observation of a BLS series: `{year, period, value}` with `period`
the numeric month code (1–12 monthly, 13 the annual aggregate M13). -/
structure DataPoint where
  year : ℤ
  period : ℕ
  value : ℚ
deriving DecidableEq

/-- One BLS series of the API response. -/
structure Series where
  seriesID : String
  data : List DataPoint
deriving DecidableEq

/-- `periodToYYYYMM` of fetch_bls.mjs: monthly code M0n ↦ month n. -/
def periodToYYYYMM (year : ℤ) (period : ℕ) : Period := ⟨year, period⟩

/-- JS object assignment `lookup[yyyymm] = v`: replace an existing binding,
else append. -/
def pinsert : List (Period × ℚ) → Period → ℚ → List (Period × ℚ)
  | [], p, v => [(p, v)]
  | (q, w) :: rest, p, v =>
      if q = p then (q, v) :: rest else (q, w) :: pinsert rest p v

/-- Lookup in the period-keyed map (keys are unique by construction). -/
def plookup : List (Period × ℚ) → Period → Option ℚ
  | [], _ => none
  | (q, w) :: rest, p => if q = p then some w else plookup rest p

/-- `buildSeriesLookup` of fetch_bls.mjs: the month → value map of one
series, skipping the annual M13 entries (only codes 1–12 are monthly). -/
def buildSeriesLookup (seriesData : List Series) (seriesId : String) :
    List (Period × ℚ) :=
  seriesData.foldl (fun lookup series =>
    if series.seriesID = seriesId then
      series.data.foldl (fun lk d =>
        if 1 ≤ d.period ∧ d.period ≤ 12 then
          pinsert lk (periodToYYYYMM d.year d.period) d.value
        else lk) lookup
    else lookup) []

/-- `INFLATION_RAW_SERIES` of fetch_bls.mjs. -/
def INFLATION_RAW_SERIES : List (String × String) :=
  [("cpi_all_items", "CUSR0000SA0"), ("cpi_core", "CUSR0000SA0L1E")]

/-- One entry of `INFLATION_DERIVED_METRICS`. -/
structure DerivedConfig where
  source_index : String
  computation : String
  precision : ℕ
deriving DecidableEq

/-- `INFLATION_DERIVED_METRICS` of fetch_bls.mjs. -/
def INFLATION_DERIVED_METRICS : List (String × DerivedConfig) :=
  [("cpi_yoy", ⟨"cpi_all_items", "yoy", 1⟩),
   ("cpi_mom", ⟨"cpi_all_items", "mom", 1⟩),
   ("core_yoy", ⟨"cpi_core", "yoy", 1⟩)]

/-- `computeInflationMetrics` of fetch_bls.mjs: for each derived metric,
look up the current index value (skip the metric when absent), then the
reference value `lag` months earlier (12 for yoy, 1 for mom; skip when
absent), and emit `round(((current / reference) − 1) · 100, precision)` as
the display value with the current index as `raw_value`. -/
def inflEntry (seriesData : List Series) (currentYYYYMM : Period)
    (kc : String × DerivedConfig) : Option (String × StructuredMetric) :=
  let lookup := buildSeriesLookup seriesData
    ((alookup INFLATION_RAW_SERIES kc.2.source_index).getD "")
  match plookup lookup currentYYYYMM with
  | none => none
  | some currentValue =>
      let display_value : Option ℚ :=
        if kc.2.computation = "yoy" then
          (plookup lookup (monthsAgo currentYYYYMM 12)).map (fun priorValue =>
            roundTo ((currentValue / priorValue - 1) * 100) kc.2.precision)
        else if kc.2.computation = "mom" then
          (plookup lookup (monthsAgo currentYYYYMM 1)).map (fun priorValue =>
            roundTo ((currentValue / priorValue - 1) * 100) kc.2.precision)
        else none
      display_value.map (fun dv => (kc.1, ⟨currentValue, dv, kc.2.precision⟩))

def computeInflationMetrics (seriesData : List Series) (currentYYYYMM : Period) :
    MetricsMap :=
  INFLATION_DERIVED_METRICS.filterMap (inflEntry seriesData currentYYYYMM)

/-- The raw CPI index series of the spec's end-to-end scenario: current
value 326.030 at 2025-09 and 314.852 exactly 12 months prior. -/
def exSeries : List Series :=
  [⟨"CUSR0000SA0", [⟨2025, 9, 326030/1000⟩, ⟨2024, 9, 314852/1000⟩]⟩]

/-- `REQUIRED_SIGNAL_SENTENCE` of review_update.mjs. -/
def REQUIRED_SIGNAL_SENTENCE : String := "Signal: decelerating and tight."

/-- The `{ valid, error }` result object of `validateSignalSentence`. -/
structure SignalCheck where
  valid : Bool
  error : Option String
deriving DecidableEq

/-- `validateSignalSentence` of review_update.mjs: the candidate's
`headline.context` must be byte-for-byte the required signal sentence.  The
JS falsy test `if (!context)` reports a missing context for both an absent
field (`none`) and the empty string. -/
def validateSignalSentence (context : Option String) : SignalCheck :=
  match context with
  | none => ⟨false, some "Missing headline.context"⟩
  | some c =>
      if c = "" then ⟨false, some "Missing headline.context"⟩
      else if c ≠ REQUIRED_SIGNAL_SENTENCE then
        ⟨false, some ("Signal sentence mismatch. Expected: \"" ++
          REQUIRED_SIGNAL_SENTENCE ++ "\" Got: \"" ++ c ++ "\"")⟩
      else ⟨true, none⟩

/-- `MONTH_NAMES` of write_update.mjs. -/
def MONTH_NAMES : List String :=
  ["January", "February", "March", "April", "May", "June",
   "July", "August", "September", "October", "November", "December"]

/-- A history ledger entry `{ date, label }`. -/
structure HistoryEntry where
  date : String
  label : String
deriving DecidableEq

/-- The display label `buildHistory` derives from the `YYYY-MM` period:
`MONTH_NAMES[month - 1]` followed by the year (out-of-range indexing
renders like the JS `undefined`). -/
def historyLabel (newReferencePeriod : String) : String :=
  match newReferencePeriod.splitOn "-" with
  | y :: m :: _ =>
      MONTH_NAMES.getD ((m.toNat?).getD 0 - 1) "undefined" ++ " " ++ y
  | _ => "undefined"

/-- `buildHistory` of write_update.mjs: if the period is already present (by
exact period-string match on `date`) the ledger is returned unchanged,
otherwise the new `{date, label}` entry is prepended and only the first four
previous entries are kept (5 total, most recent first). -/
def buildHistory (previousReleases : List HistoryEntry)
    (newReferencePeriod : String) : List HistoryEntry :=
  if previousReleases.any (fun r => r.date = newReferencePeriod) then
    previousReleases
  else
    ⟨newReferencePeriod, historyLabel newReferencePeriod⟩ :: previousReleases.take 4

/-- A five-entry ledger of distinct periods used by concrete runs. -/
def ledger5 : List HistoryEntry :=
  [⟨"2025-12", historyLabel "2025-12"⟩, ⟨"2025-11", historyLabel "2025-11"⟩,
   ⟨"2025-10", historyLabel "2025-10"⟩, ⟨"2025-09", historyLabel "2025-09"⟩,
   ⟨"2025-08", historyLabel "2025-08"⟩]

/-- The snapshot `computeNormalized` produces for `fsFull`, `p0`, `ms0`. -/
def snapFull : NormalizedSnapshot :=
  { reference_period := p0
    metrics := ms0
    deltas := []
    twelve_month_average := [("m", 1)]
    trend := [("m", List.replicate 24 (some 1))] }

instance {ε α : Type} [DecidableEq ε] [DecidableEq α] :
    DecidableEq (Except ε α)
  | .error a, .error b =>
      if h : a = b then .isTrue (by rw [h]) else .isFalse (by simp [h])
  | .error _, .ok _ => .isFalse (by simp)
  | .ok _, .error _ => .isFalse (by simp)
  | .ok a, .ok b =>
      if h : a = b then .isTrue (by rw [h]) else .isFalse (by simp [h])


/-- `SIGNAL_SENTENCE` of write_update.mjs (the hardcoded constant the writer
force-injects). -/
def SIGNAL_SENTENCE : String := "Signal: decelerating and tight."

/-- `FALLBACK_TEXT` of write_update.mjs. -/
def FALLBACK_TEXT : String := "No material changes were recorded in this release."

/-- `hasValue` of write_update.mjs: false for `null`/`undefined` and for
zero (NaN has no counterpart in `ℚ`). -/
def hasValue : Option ℚ → Bool
  | none => false
  | some v => if v = 0 then false else true

/-- `extractValue` of write_update.mjs restricted to structured metrics:
the metric's `display_value`, or `null` when the metric is absent. -/
def extractValue (metric : Option StructuredMetric) : Option ℚ :=
  metric.map (·.display_value)

/-- Thousands grouping over a reversed digit list: a comma after every
three digits. -/
def groupRev : List Char → List Char
  | [] => []
  | [a] => [a]
  | [a, b] => [a, b]
  | [a, b, c] => [a, b, c]
  | a :: b :: c :: d :: rest => a :: b :: c :: ',' :: groupRev (d :: rest)

/-- The digits of a natural number grouped in threes with commas. -/
def groupThousands (n : ℕ) : String :=
  String.mk ((groupRev (toString n).toList.reverse).reverse)

/-- Decimal digits of a fraction `0 ≤ x < 1`, most significant first,
stopping at zero or after `fuel` digits (trailing zeros are dropped). -/
def fracDigits : ℚ → ℕ → String
  | _, 0 => ""
  | x, fuel + 1 =>
      if x = 0 then ""
      else
        let d := ⌊x * 10⌋
        toString d.toNat ++ fracDigits (x * 10 - (d : ℚ)) fuel

/-- Model of the default JS number-to-string conversion (template-literal
interpolation `${x}`) for the finite-decimal rationals that flow through
the templates. -/
def jsNumToString (q : ℚ) : String :=
  let a := |q|
  let ip := (⌊a⌋).toNat
  let fp := a - ⌊a⌋
  (if q < 0 then "-" else "") ++
    (if fp = 0 then toString ip else toString ip ++ "." ++ fracDigits fp 17)

/-- Model of `Number.prototype.toLocaleString('en-US')`: thousands grouping
and at most three fraction digits. -/
def toLocaleStringEnUS (q : ℚ) : String :=
  let a := |q|
  let r := roundTo a 3
  let ip := (⌊r⌋).toNat
  let fp := r - ⌊r⌋
  (if q < 0 then "-" else "") ++
    (if fp = 0 then groupThousands ip else groupThousands ip ++ "." ++ fracDigits fp 3)

/-- Model of `x.toFixed(1)` for the nonnegative values it is applied to
(always `Math.abs(...)` in the templates). -/
def toFixed1 (q : ℚ) : String :=
  let n := (jsRound (q * 10)).toNat
  toString (n / 10) ++ "." ++ toString (n % 10)

/-- `formatNumber` of write_update.mjs: `null` for a missing or zero value,
otherwise `Math.abs(value).toLocaleString('en-US')`. -/
def formatNumber (value : Option ℚ) : Option String :=
  if hasValue value then value.map (fun v => toLocaleStringEnUS |v|) else none

/-- `buildPayrollsSentence` of write_update.mjs: delta-only template
`Nonfarm payrolls {increased by|declined by} X,XXX.`; `null` when the delta
is missing or zero (`!hasValue`), or when formatting returns `null`. -/
def buildPayrollsSentence (normalized : NormalizedSnapshot) : Option String :=
  match extractValue (alookup normalized.deltas "payrolls") with
  | none => none
  | some delta =>
      if delta = 0 then none
      else
        let verb := if 0 < delta then "increased by" else "declined by"
        match formatNumber (some delta) with
        | none => none
        | some formatted =>
            some ("Nonfarm payrolls " ++ verb ++ " " ++ formatted ++ ".")

/-- `buildUnemploymentSentence` of write_update.mjs: the delta template when
a non-zero delta exists, else the level template, else `null`. -/
def buildUnemploymentSentence (normalized : NormalizedSnapshot) : Option String :=
  match extractValue (alookup normalized.deltas "unemployment_rate") with
  | some delta =>
      if delta = 0 then
        match extractValue (alookup normalized.metrics "unemployment_rate") with
        | some level =>
            if level = 0 then none
            else some ("The unemployment rate stands at " ++ jsNumToString level ++ " percent.")
        | none => none
      else
        let verb := if 0 < delta then "increased by" else "declined by"
        some ("The unemployment rate " ++ verb ++ " " ++ jsNumToString |delta| ++
          " percentage point.")
  | none =>
      match extractValue (alookup normalized.metrics "unemployment_rate") with
      | some level =>
          if level = 0 then none
          else some ("The unemployment rate stands at " ++ jsNumToString level ++ " percent.")
      | none => none

/-- `buildParticipationSentence` of write_update.mjs: level-only template. -/
def buildParticipationSentence (normalized : NormalizedSnapshot) : Option String :=
  match extractValue (alookup normalized.metrics "labor_force_participation") with
  | some level =>
      if level = 0 then none
      else some ("Labor force participation stands at " ++ jsNumToString level ++ " percent.")
  | none => none

/-- `buildWagesSentence` of write_update.mjs: delta-only template with
`Math.abs(delta).toFixed(1)`. -/
def buildWagesSentence (normalized : NormalizedSnapshot) : Option String :=
  match extractValue (alookup normalized.deltas "average_hourly_earnings_yoy") with
  | some delta =>
      if delta = 0 then none
      else
        let verb := if 0 < delta then "increased by" else "declined by"
        some ("Average hourly earnings " ++ verb ++ " " ++ toFixed1 |delta| ++ " percent.")
  | none => none

/-- `buildCpiSentence` of write_update.mjs: level-only template. -/
def buildCpiSentence (normalized : NormalizedSnapshot) : Option String :=
  match extractValue (alookup normalized.metrics "cpi_all_items_yoy") with
  | some level =>
      if level = 0 then none
      else some ("The Consumer Price Index stands at " ++ jsNumToString level ++
        " percent year-over-year.")
  | none => none

/-- `buildCoreCpiSentence` of write_update.mjs: level-only template. -/
def buildCoreCpiSentence (normalized : NormalizedSnapshot) : Option String :=
  match extractValue (alookup normalized.metrics "cpi_core_yoy") with
  | some level =>
      if level = 0 then none
      else some ("Core CPI stands at " ++ jsNumToString level ++ " percent year-over-year.")
  | none => none

/-- `buildCpiMomSentence` of write_update.mjs.  The script defines this
function twice; by JS function hoisting the later definition (the
`rose by`/`fell by` wording) shadows the earlier `increased by`/`declined
by` one everywhere, so the effective template is modelled here. -/
def buildCpiMomSentence (normalized : NormalizedSnapshot) : Option String :=
  match extractValue (alookup normalized.deltas "cpi_mom") with
  | some delta =>
      if delta = 0 then none
      else
        let verb := if 0 < delta then "rose by" else "fell by"
        some ("Monthly prices " ++ verb ++ " " ++ toFixed1 |delta| ++ " percent.")
  | none => none

/-- The `{title, summary, context}` headline object. -/
structure Headline where
  title : String
  summary : String
  context : String
deriving DecidableEq

/-- `formatPeriodForDisplay` of write_update.mjs. -/
def formatPeriodForDisplay (p : Period) : String :=
  MONTH_NAMES.getD (p.month - 1).toNat "undefined" ++ " " ++ toString p.year

/-- `buildHeadline` of write_update.mjs: dataset-specific deterministic
headline; every branch sets `context` to the hardcoded signal sentence. -/
def buildHeadline (dataset : String) (normalized : NormalizedSnapshot) : Headline :=
  let period := formatPeriodForDisplay normalized.reference_period
  if dataset = "jobs" then
    match extractValue (alookup normalized.deltas "payrolls") with
    | none => ⟨"Jobs Report: " ++ period, FALLBACK_TEXT, SIGNAL_SENTENCE⟩
    | some delta =>
        if delta = 0 then ⟨"Jobs Report: " ++ period, FALLBACK_TEXT, SIGNAL_SENTENCE⟩
        else
          let verb := if 0 < delta then "increased by" else "declined by"
          let formatted := (formatNumber (some delta)).getD "null"
          let summaryParts := [buildPayrollsSentence normalized,
            buildUnemploymentSentence normalized].filterMap id
          let summary :=
            if summaryParts.length > 0 then String.intercalate " " summaryParts
            else FALLBACK_TEXT
          ⟨"Payrolls " ++ verb ++ " " ++ formatted ++ " in " ++ period, summary,
            SIGNAL_SENTENCE⟩
  else if dataset = "inflation" then
    match extractValue (alookup normalized.metrics "cpi_all_items_yoy") with
    | none => ⟨"Inflation Report: " ++ period, FALLBACK_TEXT, SIGNAL_SENTENCE⟩
    | some level =>
        if level = 0 then ⟨"Inflation Report: " ++ period, FALLBACK_TEXT, SIGNAL_SENTENCE⟩
        else
          let summaryParts := [buildCpiSentence normalized,
            buildCpiMomSentence normalized].filterMap id
          let summary :=
            if summaryParts.length > 0 then String.intercalate " " summaryParts
            else FALLBACK_TEXT
          ⟨"Inflation measured " ++ jsNumToString level ++ " percent year-over-year in " ++
            period, summary, SIGNAL_SENTENCE⟩
  else
    ⟨dataset ++ " Report: " ++ period, FALLBACK_TEXT, SIGNAL_SENTENCE⟩

/-- The `{what_changed, …}` editorial object. -/
structure Editorial where
  what_changed : String
  what_didnt : String
  why_it_matters : String
  revision_note : String
  editor_note : String
deriving DecidableEq

/-- `buildEditorial` of write_update.mjs. -/
def buildEditorial (dataset : String) (normalized : NormalizedSnapshot) : Editorial :=
  if dataset = "jobs" then
    let changedParts := [buildPayrollsSentence normalized,
      buildUnemploymentSentence normalized, buildWagesSentence normalized].filterMap id
    { what_changed :=
        if changedParts.length > 0 then String.intercalate " " changedParts
        else FALLBACK_TEXT
      what_didnt := (buildParticipationSentence normalized).getD ""
      why_it_matters := ""
      revision_note := ""
      editor_note := "" }
  else if dataset = "inflation" then
    let changedParts := [buildCpiSentence normalized,
      buildCpiMomSentence normalized].filterMap id
    { what_changed :=
        if changedParts.length > 0 then String.intercalate " " changedParts
        else FALLBACK_TEXT
      what_didnt := (buildCoreCpiSentence normalized).getD ""
      why_it_matters := ""
      revision_note := ""
      editor_note := "" }
  else
    { what_changed := FALLBACK_TEXT
      what_didnt := ""
      why_it_matters := ""
      revision_note := ""
      editor_note := "" }

/-- The `{headline, editorial}` pair returned by `draftEditorial`. -/
structure Drafted where
  headline : Headline
  editorial : Editorial
deriving DecidableEq

/-- `draftEditorial` of write_update.mjs: fully deterministic drafting; the
signal sentence is force-written over the headline's context field,
overriding whatever `buildHeadline` put there. -/
def draftEditorial (dataset : String) (normalized : NormalizedSnapshot) : Drafted :=
  let headline := buildHeadline dataset normalized
  let editorial := buildEditorial dataset normalized
  ⟨{ headline with context := SIGNAL_SENTENCE }, editorial⟩

/-- A snapshot whose only content is a payrolls delta of `d`. -/
def nPay (d : ℚ) : NormalizedSnapshot := ⟨p0, [], [("payrolls", ⟨d, d, 0⟩)], [], []⟩

/-- One per-metric entry of `comparisons.prior_release` as assembled by
`buildComparisons` of write_update.mjs: the prior production value (or
null) and a delta display value. -/
structure PriorEntry where
  value : Option ℚ
  delta : ℚ
deriving DecidableEq

/-- `buildComparisons` of write_update.mjs, the per-metric entries of
`comparisons.prior_release` (the `date`/`reference_period` header fields
are elided).  For each key of the normalized metrics the prior production
value (`existingLatest.metrics?.[key]?.value ?? null`) is paired with the
delta's display value — `let deltaValue = 0` makes a missing delta render
as zero. -/
def buildComparisons (normalized : NormalizedSnapshot)
    (existingMetricValues : List (String × Option ℚ)) : List (String × PriorEntry) :=
  normalized.metrics.map (fun km =>
    (km.1,
      { value := (alookup existingMetricValues km.1).getD none
        delta :=
          match alookup normalized.deltas km.1 with
          | none => 0
          | some d => d.display_value }))

/-- A normalized snapshot holding a payrolls metric but no deltas at all
(the first release of a key: no prior published value). -/
def n6 : NormalizedSnapshot := ⟨p0, [("payrolls", ⟨150000, 150000, 0⟩)], [], [], []⟩

/-- A JS `\w` word character: `[A-Za-z0-9_]`. -/
def isWordChar (c : Char) : Bool := c.isAlphanum || c = '_'

/-- Case folding for the `i` regex flag. -/
def lowerList (s : String) : List Char := s.toList.map Char.toLower

/-- Whether the pattern is a prefix of the character list. -/
def listStartsWith : List Char → List Char → Bool
  | [], _ => true
  | _ :: _, [] => false
  | w :: ws, c :: cs => w = c && listStartsWith ws cs

/-- A `\bword\b` match at the current position: preceded by nothing or a
non-word character, the pattern itself, followed by nothing or a non-word
character. -/
def matchesWordAt (w : List Char) (prev : Option Char) (cs : List Char) : Bool :=
  (match prev with
   | none => true
   | some c => !isWordChar c) &&
  listStartsWith w cs &&
  (match cs.drop w.length with
   | [] => true
   | c :: _ => !isWordChar c)

def countWordAux (w : List Char) : Option Char → List Char → ℕ
  | _, [] => 0
  | prev, c :: cs =>
      (if matchesWordAt w prev (c :: cs) then 1 else 0) + countWordAux w (some c) cs

/-- The number of case-insensitive word-boundary occurrences of `pat` in
`text`: the match count of the regex `/\bpat\b/gi`. -/
def countWord (text : String) (pat : String) : ℕ :=
  countWordAux (lowerList pat) none (lowerList text)

/-- The number of occurrences of the character `c` in `text`: the match
count of a single-character global regex. -/
def countChar (text : String) (c : Char) : ℕ :=
  (text.toList.filter (fun x => x = c)).length

/-- `CRITICAL_PATTERNS` of review_update.mjs: the three hard-banned
characters with their report names. -/
def CRITICAL_PATTERNS : List (Char × String) :=
  [('—', "em-dash"), (';', "semicolon"), ('!', "exclamation point")]

/-- `WARNING_PATTERNS` of review_update.mjs: each soft-banned word or
phrase as its list of literal alternatives (the optional apostrophe of
`/\bIt'?s worth noting\b/` expands to two alternatives) with its report
name. -/
def WARNING_PATTERNS : List (List String × String) :=
  [(["Furthermore"], "Furthermore"),
   (["Moreover"], "Moreover"),
   (["Additionally"], "Additionally"),
   (["Nevertheless"], "Nevertheless"),
   (["Consequently"], "Consequently"),
   (["It\x27s worth noting", "Its worth noting"], "It\x27s worth noting"),
   (["It should be noted"], "It should be noted"),
   (["Notably"], "Notably"),
   (["Significantly"], "Significantly"),
   (["Interestingly"], "Interestingly"),
   (["Importantly"], "Importantly"),
   (["This is significant"], "This is significant"),
   (["In terms of"], "In terms of"),
   (["utilize"], "utilize"),
   (["leverage"], "leverage"),
   (["robust"], "robust")]

/-- The audited text fields of a candidate document; absent fields are
`none`. -/
structure CandidateText where
  title : Option String
  summary : Option String
  context : Option String
  what_changed : Option String
  what_didnt : Option String
  why_it_matters : Option String
  revision_note : Option String
  editor_note : Option String
deriving DecidableEq

/-- `extractTextFields` of review_update.mjs: the present, non-empty
audited fields (`filter(Boolean)` drops both) joined with newlines. -/
def extractTextFields (c : CandidateText) : String :=
  String.intercalate "\n"
    (([c.title, c.summary, c.context, c.what_changed, c.what_didnt,
       c.why_it_matters, c.revision_note, c.editor_note].filterMap id).filter
      (fun s => s ≠ ""))

/-- The `{ errors, warnings }` result of `runLinter`. -/
structure LintResult where
  errors : List String
  warnings : List String
deriving DecidableEq

/-- The error line reported per critical pattern. -/
def criticalMessage (count : ℕ) (name : String) : String :=
  "Found " ++ toString count ++ " instance(s) of banned pattern: " ++ name

/-- The warning line reported per warning pattern. -/
def warningMessage (count : ℕ) (name : String) : String :=
  "Found " ++ toString count ++ " instance(s) of: " ++ name

/-- `runLinter` of review_update.mjs: one itemized error per critical
pattern that occurs at least once, one itemized warning per warning
pattern that occurs at least once. -/
def runLinter (candidate : CandidateText) : LintResult :=
  { errors := CRITICAL_PATTERNS.filterMap (fun pn =>
      let k := countChar (extractTextFields candidate) pn.1
      if 0 < k then some (criticalMessage k pn.2) else none)
    warnings := WARNING_PATTERNS.filterMap (fun pn =>
      let k := (pn.1.map (countWord (extractTextFields candidate))).sum
      if 0 < k then some (warningMessage k pn.2) else none) }

/-- The fail-fast decision of `main` in review_update.mjs: the linter fails
the gate exactly when it reported at least one error; warnings alone never
fail. -/
def linterFails (candidate : CandidateText) : Bool :=
  !(runLinter candidate).errors.isEmpty

/-- A candidate containing only soft-listed words (no critical pattern). -/
def softCandidate : CandidateText :=
  ⟨some "Jobs Report", some "Furthermore the data held steady, robust as before.",
   some SIGNAL_SENTENCE, some "", none, none, none, none⟩

/-- A candidate containing an em-dash, a semicolon and an exclamation mark. -/
def hardCandidate : CandidateText :=
  ⟨some "Payrolls surged — dramatically", some "Jobs; wow!",
   some SIGNAL_SENTENCE, none, none, none, none, none⟩

end RTD

namespace RTD

/-- `padTrend` always returns exactly 24 entries. -/
theorem padTrend_length (values : List Value) :
    (padTrend values).length = TREND_LENGTH := by
  unfold padTrend
  split
  · simp
    omega
  · simp
    omega

theorem alookup_map_pair {α β : Type} (l : List (String × α))
    (f : String → α → β) (k : String) :
    alookup (l.map (fun p => (p.1, f p.1 p.2))) k =
      (alookup l k).map (f k) := by
  induction l with
  | nil => rfl
  | cons hd tl ih =>
      simp only [List.map_cons, alookup]
      split
      · rename_i h
        subst h
        rfl
      · exact ih

theorem computeTrends_no_length_mismatch (history : List (Option MetricsMap))
    (metrics : MetricsMap) :
    (computeTrends history metrics).any
      (fun kt => kt.2.length ≠ TREND_LENGTH) = false := by
  rw [List.any_eq_false]
  intro kt hmem
  simp only [computeTrends, List.mem_map] at hmem
  obtain ⟨km, _, rfl⟩ := hmem
  simp [padTrend_length]

/-- Inversion for the successful case of `computeNormalized`. -/
theorem computeNormalized_ok (fs : Period → Option MetricsMap) (current : Period)
    (metrics : MetricsMap) (prior : List (String × ℚ)) (snap : NormalizedSnapshot)
    (h : computeNormalized fs current metrics prior = .ok snap) :
    snap.metrics = metrics ∧
    snap.deltas = computeDeltas metrics prior ∧
    snap.trend = computeTrends (loadNormalizedHistory fs current 23) metrics := by
  unfold computeNormalized at h
  rw [computeTrends_no_length_mismatch] at h
  simp only [Bool.false_eq_true, if_false] at h
  split at h
  · exact absurd h (by simp)
  · simp only [Except.ok.injEq] at h
    subst h
    exact ⟨rfl, rfl, rfl⟩

/-- C1.  The guardrail of `computeNormalized`: if any metric key's padded
24-entry trend contains more than 12 nulls, the normalization run aborts
with a fatal error (`Except.error`, the model of `process.exit(1)`) and no
normalized snapshot is produced for the period; if every key's trend has at
most 12 nulls, the guardrail does not abort and the snapshot is produced
(and subsequently written by `saveData`). -/
theorem guardrail_aborts_iff_over_12_nulls (fs : Period → Option MetricsMap)
    (current : Period) (metrics : MetricsMap) (prior : List (String × ℚ)) :
    ((∃ kt ∈ computeTrends (loadNormalizedHistory fs current 23) metrics,
        12 < nullCount kt.2) →
      (∃ e, computeNormalized fs current metrics prior = .error e) ∧
      ∀ snap, computeNormalized fs current metrics prior ≠ .ok snap) ∧
    ((∀ kt ∈ computeTrends (loadNormalizedHistory fs current 23) metrics,
        nullCount kt.2 ≤ 12) →
      ∃ snap, computeNormalized fs current metrics prior = .ok snap) := by
  constructor
  · rintro ⟨kt, hmem, hgt⟩
    have hsome : ((computeTrends (loadNormalizedHistory fs current 23) metrics).find?
        (fun kt => 12 < nullCount kt.2)).isSome := by
      rw [List.find?_isSome]
      exact ⟨kt, hmem, by simpa using hgt⟩
    obtain ⟨kt', hfind⟩ := Option.isSome_iff_exists.mp hsome
    have herr : computeNormalized fs current metrics prior =
        .error ("ABORT: Trend for " ++ kt'.1 ++ " has too many null values") := by
      unfold computeNormalized
      rw [computeTrends_no_length_mismatch]
      simp only [Bool.false_eq_true, if_false]
      rw [hfind]
    refine ⟨⟨_, herr⟩, fun snap hok => ?_⟩
    rw [herr] at hok
    exact absurd hok (by simp)
  · intro hall
    have hnone : (computeTrends (loadNormalizedHistory fs current 23) metrics).find?
        (fun kt => 12 < nullCount kt.2) = none := by
      rw [List.find?_eq_none]
      intro kt hmem
      simpa using hall kt hmem
    have hok : computeNormalized fs current metrics prior =
        .ok { reference_period := current
              metrics := metrics
              deltas := computeDeltas metrics prior
              twelve_month_average :=
                twelveMonthAvg (computeTrends (loadNormalizedHistory fs current 23) metrics) metrics
              trend := computeTrends (loadNormalizedHistory fs current 23) metrics } := by
      unfold computeNormalized
      rw [computeTrends_no_length_mismatch]
      simp only [Bool.false_eq_true, if_false]
      rw [hnone]
    exact ⟨_, hok⟩

/-- Witness for C1: with no history at all the single key's trend has 23
nulls, so the run aborts and no snapshot is produced; with a full history
the run succeeds. -/
theorem guardrail_aborts_iff_over_12_nulls_witness :
    ((∃ e, computeNormalized fsEmpty p0 ms0 [] = .error e) ∧
      ∀ snap, computeNormalized fsEmpty p0 ms0 [] ≠ .ok snap) ∧
    (∃ snap, computeNormalized fsFull p0 ms0 [] = .ok snap) :=
  ⟨(guardrail_aborts_iff_over_12_nulls fsEmpty p0 ms0 []).1 (by decide),
   (guardrail_aborts_iff_over_12_nulls fsFull p0 ms0 []).2 (by decide)⟩

theorem loadNormalizedHistory_length (fs : Period → Option MetricsMap)
    (current : Period) (n : ℕ) :
    (loadNormalizedHistory fs current n).length = n := by
  simp [loadNormalizedHistory]

theorem historicalValues_length (history : List (Option MetricsMap)) (key : String) :
    (historicalValues history key).length = history.length := by
  simp [historicalValues]

theorem padTrend_of_length_eq (values : List Value)
    (h : values.length = TREND_LENGTH) : padTrend values = values := by
  unfold padTrend
  rw [h, if_pos le_rfl, Nat.sub_self, List.drop_zero]

/-- C2.  Shape of trend sequences: `padTrend` always yields exactly 24
entries, left-padding with nulls when fewer than 24 values are given and
keeping only the most recent 24 otherwise; and in every snapshot produced by
`computeNormalized`, the trend of each metric key is exactly the 23
oldest-first historical display values followed by the current period's
freshly computed display value, hence has length 24 with the current value
as its final entry (index 23). -/
theorem trend_is_24_history_then_current (fs : Period → Option MetricsMap)
    (current : Period) (metrics : MetricsMap) (prior : List (String × ℚ)) :
    (∀ values : List Value, (padTrend values).length = TREND_LENGTH) ∧
    (∀ values : List Value, values.length < TREND_LENGTH →
      padTrend values = List.replicate (TREND_LENGTH - values.length) none ++ values) ∧
    (∀ values : List Value, TREND_LENGTH ≤ values.length →
      padTrend values = values.drop (values.length - TREND_LENGTH)) ∧
    (∀ snap k m, computeNormalized fs current metrics prior = .ok snap →
      alookup metrics k = some m →
      alookup snap.trend k =
        some (historicalValues (loadNormalizedHistory fs current 23) k ++
          [some m.display_value]) ∧
      ∀ t, alookup snap.trend k = some t →
        t.length = TREND_LENGTH ∧ t.getLast? = some (some m.display_value)) := by
  refine ⟨padTrend_length, ?_, ?_, ?_⟩
  · intro values h
    unfold padTrend
    rw [if_neg (by omega)]
  · intro values h
    unfold padTrend
    rw [if_pos h]
  · intro snap k m hok hm
    obtain ⟨-, -, htr⟩ := computeNormalized_ok fs current metrics prior snap hok
    have hlook : alookup snap.trend k =
        some (historicalValues (loadNormalizedHistory fs current 23) k ++
          [some m.display_value]) := by
      rw [htr]
      unfold computeTrends
      rw [alookup_map_pair metrics
        (fun key sm => padTrend (historicalValues (loadNormalizedHistory fs current 23) key ++
          [some sm.display_value])) k, hm]
      rw [Option.map_some']
      congr 1
    refine ⟨hlook, fun t ht => ?_⟩
    rw [hlook] at ht
    obtain rfl : _ = t := Option.some.inj ht
    constructor
    · rw [List.length_append, historicalValues_length, loadNormalizedHistory_length]
      rfl
    · exact List.getLast?_concat _

/-- Witness for C2: the padding branches at concrete inputs, and the concrete
full-history run where the trend for `"m"` is the history followed by the
current display value. -/
theorem trend_is_24_history_then_current_witness :
    (padTrend [some (1 : ℚ)]).length = TREND_LENGTH ∧
    padTrend [some (1 : ℚ)] = List.replicate 23 none ++ [some (1 : ℚ)] ∧
    padTrend (List.replicate 25 (some (1 : ℚ))) =
      (List.replicate 25 (some (1 : ℚ))).drop 1 ∧
    alookup snapFull.trend "m" =
      some (historicalValues (loadNormalizedHistory fsFull p0 23) "m" ++ [some 1]) :=
  ⟨(trend_is_24_history_then_current fsFull p0 ms0 []).1 _,
   (trend_is_24_history_then_current fsFull p0 ms0 []).2.1 [some 1] (by decide),
   (trend_is_24_history_then_current fsFull p0 ms0 []).2.2.1 _ (by decide),
   ((trend_is_24_history_then_current fsFull p0 ms0 []).2.2.2 snapFull "m" ⟨1, 1, 0⟩
     (by decide) (by decide)).1⟩

theorem leadingNullsOnly_cons_none (t : List Value) :
    leadingNullsOnly (none :: t) = leadingNullsOnly t := by
  simp [leadingNullsOnly, List.dropWhile]

theorem leadingNullsOnly_replicate_append (k : ℕ) (t : List Value) :
    leadingNullsOnly (List.replicate k none ++ t) = leadingNullsOnly t := by
  induction k with
  | zero => simp
  | succ n ih => simpa [List.replicate_succ, leadingNullsOnly_cons_none] using ih

theorem leadingNullsOnly_of_all_some (t : List Value)
    (h : t.all (fun v => v ≠ none) = true) : leadingNullsOnly t = true := by
  cases t with
  | nil => rfl
  | cons x rest =>
      unfold leadingNullsOnly
      rw [List.dropWhile_cons]
      have hx : ¬ (x = none) := by
        simpa using (List.all_eq_true.mp h x (List.mem_cons_self x rest))
      rw [if_neg (by simpa using hx)]
      exact h

theorem all_some_of_leadingNullsOnly_cons (v : ℚ) (rest : List Value)
    (h : leadingNullsOnly (some v :: rest) = true) :
    (some v :: rest).all (fun x => x ≠ none) = true := by
  unfold leadingNullsOnly at h
  rw [List.dropWhile_cons] at h
  rw [if_neg (by simp)] at h
  exact h

theorem leadingNullsOnly_append_some (t : List Value) (q : ℚ)
    (h : leadingNullsOnly t = true) : leadingNullsOnly (t ++ [some q]) = true := by
  induction t with
  | nil => rfl
  | cons x rest ih =>
      cases x with
      | none =>
          rw [List.cons_append, leadingNullsOnly_cons_none]
          exact ih (by rwa [leadingNullsOnly_cons_none] at h)
      | some v =>
          apply leadingNullsOnly_of_all_some
          rw [List.cons_append, List.all_cons, List.all_append]
          have hall := all_some_of_leadingNullsOnly_cons v rest h
          rw [List.all_cons] at hall
          simp only [Bool.and_eq_true] at hall ⊢
          exact ⟨hall.1, hall.2, by simp⟩

theorem leadingNullsOnly_drop (t : List Value) (k : ℕ)
    (h : leadingNullsOnly t = true) : leadingNullsOnly (t.drop k) = true := by
  induction t generalizing k with
  | nil => simpa using h
  | cons x rest ih =>
      cases k with
      | zero => exact h
      | succ n =>
          rw [List.drop_succ_cons]
          apply ih
          cases x with
          | none => rwa [leadingNullsOnly_cons_none] at h
          | some v =>
              apply leadingNullsOnly_of_all_some
              have hall := all_some_of_leadingNullsOnly_cons v rest h
              rw [List.all_cons, Bool.and_eq_true] at hall
              exact hall.2

theorem leadingNullsOnly_get? (t : List Value) (h : leadingNullsOnly t = true) :
    ∀ i j : ℕ, i < j → t.get? j = some none → t.get? i = some none := by
  induction t with
  | nil =>
      intro i j _ hj
      simp at hj
  | cons x rest ih =>
      intro i j hij hj
      cases j with
      | zero => omega
      | succ n =>
          rw [List.get?_cons_succ] at hj
          cases x with
          | none =>
              cases i with
              | zero => rfl
              | succ m =>
                  rw [List.get?_cons_succ]
                  exact ih (by rwa [leadingNullsOnly_cons_none] at h) m n (by omega) hj
          | some v =>
              exfalso
              have hall := all_some_of_leadingNullsOnly_cons v rest h
              rw [List.all_cons] at hall
              rw [Bool.and_eq_true] at hall
              have h2 := hall.2
              have hmem : (none : Value) ∈ rest := List.get?_mem hj
              have := List.all_eq_true.mp h2 _ hmem
              simp at this

/-- C3 (counterexample).  The contiguous-null-prefix invariant fails on the
code: with every month present except 2025-11 (two months before the
current period 2026-01), `computeNormalized` succeeds — 1 null is within the
guardrail — and writes a trend whose slot 21 is null while slot 0 (and
slot 23) are non-null, so a null follows non-null values. -/
theorem trend_interior_null_counterexample :
    ((computeNormalized fsGap p0 ms0 []).toOption.bind
        (fun s => alookup s.trend "m")).bind (fun t => t.get? 21) = some none ∧
    ((computeNormalized fsGap p0 ms0 []).toOption.bind
        (fun s => alookup s.trend "m")).bind (fun t => t.get? 20) = some (some 1) := by
  decide

/-- C3 (amended).  Nulls occur only as a contiguous prefix of a trend
sequence provided the extracted historical values for the key themselves
have nulls only as a leading run (no snapshot or metric missing in the
middle of the 23-month walk): then the padded trend also has nulls only as
a leading run, i.e. whenever slot `j` is null every earlier slot `i < j` is
null too. -/
theorem trend_leading_nulls_of_contiguous_history (fs : Period → Option MetricsMap)
    (current : Period) (metrics : MetricsMap) (prior : List (String × ℚ)) :
    ∀ snap k t, computeNormalized fs current metrics prior = .ok snap →
      alookup snap.trend k = some t →
      leadingNullsOnly (historicalValues (loadNormalizedHistory fs current 23) k) = true →
      leadingNullsOnly t = true ∧
      ∀ i j : ℕ, i < j → t.get? j = some none → t.get? i = some none := by
  intro snap k t hok hlook hpre
  obtain ⟨-, -, htr⟩ := computeNormalized_ok fs current metrics prior snap hok
  rw [htr] at hlook
  unfold computeTrends at hlook
  rw [alookup_map_pair metrics
    (fun key sm => padTrend (historicalValues (loadNormalizedHistory fs current 23) key ++
      [some sm.display_value])) k] at hlook
  cases hm : alookup metrics k with
  | none =>
      rw [hm] at hlook
      simp at hlook
  | some m =>
      rw [hm, Option.map_some'] at hlook
      obtain rfl : _ = t := Option.some.inj hlook
      have h1 : leadingNullsOnly (historicalValues (loadNormalizedHistory fs current 23) k ++
          [some m.display_value]) = true :=
        leadingNullsOnly_append_some _ _ hpre
      have h2 : leadingNullsOnly
          (padTrend (historicalValues (loadNormalizedHistory fs current 23) k ++
            [some m.display_value])) = true := by
        unfold padTrend
        split
        · exact leadingNullsOnly_drop _ _ h1
        · rw [leadingNullsOnly_replicate_append]
          exact h1
      exact ⟨h2, leadingNullsOnly_get? _ h2⟩

/-- Witness for the amended C3 at the full-history run. -/
theorem trend_leading_nulls_of_contiguous_history_witness :
    leadingNullsOnly (List.replicate 24 (some (1 : ℚ))) = true :=
  (trend_leading_nulls_of_contiguous_history fsFull p0 ms0 [] snapFull "m"
    (List.replicate 24 (some (1 : ℚ))) (by decide) (by decide) (by decide)).1

theorem inflEntry_key (seriesData : List Series) (current : Period)
    (kc : String × DerivedConfig) (kv : String × StructuredMetric)
    (h : inflEntry seriesData current kc = some kv) : kv.1 = kc.1 := by
  unfold inflEntry at h
  cases hc : plookup (buildSeriesLookup seriesData
      ((alookup INFLATION_RAW_SERIES kc.2.source_index).getD "")) current with
  | none =>
      simp only [hc] at h
      exact absurd h (by simp)
  | some cv =>
      simp only [hc] at h
      by_cases hyoy : kc.2.computation = "yoy"
      · simp only [if_pos hyoy, Option.map_map] at h
        obtain ⟨dv, -, hfk⟩ := Option.map_eq_some'.mp h
        rw [← hfk]
        rfl
      · by_cases hmom : kc.2.computation = "mom"
        · simp only [if_neg hyoy, if_pos hmom, Option.map_map] at h
          obtain ⟨dv, -, hfk⟩ := Option.map_eq_some'.mp h
          rw [← hfk]
          rfl
        · simp only [if_neg hyoy, if_neg hmom, Option.map_none'] at h
          exact absurd h (by simp)

theorem alookup_filterMap_ne {α β : Type} (l : List α)
    (f : α → Option (String × β)) (key : String)
    (h : ∀ a ∈ l, ∀ kv, f a = some kv → kv.1 ≠ key) :
    alookup (l.filterMap f) key = none := by
  induction l with
  | nil => rfl
  | cons hd tl ih =>
      rw [List.filterMap_cons]
      cases hf : f hd with
      | none => exact ih (fun a ha => h a (List.mem_cons_of_mem hd ha))
      | some kv =>
          obtain ⟨k, v⟩ := kv
          rw [alookup,
            if_neg (h hd (List.mem_cons_self hd tl) (k, v) hf)]
          exact ih (fun a ha => h a (List.mem_cons_of_mem hd ha))

theorem inflEntry_yoy_some (seriesData : List Series) (current : Period)
    (k si : String) (p : ℕ) (cv rv : ℚ)
    (hc : plookup (buildSeriesLookup seriesData
      ((alookup INFLATION_RAW_SERIES si).getD "")) current = some cv)
    (hr : plookup (buildSeriesLookup seriesData
      ((alookup INFLATION_RAW_SERIES si).getD "")) (monthsAgo current 12) = some rv) :
    inflEntry seriesData current (k, ⟨si, "yoy", p⟩) =
      some (k, ⟨cv, roundTo ((cv / rv - 1) * 100) p, p⟩) := by
  unfold inflEntry
  simp only [hc, hr]
  rfl

theorem inflEntry_mom_some (seriesData : List Series) (current : Period)
    (k si : String) (p : ℕ) (cv rv : ℚ)
    (hc : plookup (buildSeriesLookup seriesData
      ((alookup INFLATION_RAW_SERIES si).getD "")) current = some cv)
    (hr : plookup (buildSeriesLookup seriesData
      ((alookup INFLATION_RAW_SERIES si).getD "")) (monthsAgo current 1) = some rv) :
    inflEntry seriesData current (k, ⟨si, "mom", p⟩) =
      some (k, ⟨cv, roundTo ((cv / rv - 1) * 100) p, p⟩) := by
  unfold inflEntry
  simp only [hc, hr]
  rfl

theorem inflEntry_yoy_none (seriesData : List Series) (current : Period)
    (k si : String) (p : ℕ)
    (h : plookup (buildSeriesLookup seriesData
        ((alookup INFLATION_RAW_SERIES si).getD "")) current = none ∨
      plookup (buildSeriesLookup seriesData
        ((alookup INFLATION_RAW_SERIES si).getD "")) (monthsAgo current 12) = none) :
    inflEntry seriesData current (k, ⟨si, "yoy", p⟩) = none := by
  unfold inflEntry
  rcases h with h | h
  · simp only [h]
  · cases hc : plookup (buildSeriesLookup seriesData
        ((alookup INFLATION_RAW_SERIES si).getD "")) current
    · simp only [hc]
    · simp only [hc, h]
      rfl

theorem inflEntry_mom_none (seriesData : List Series) (current : Period)
    (k si : String) (p : ℕ)
    (h : plookup (buildSeriesLookup seriesData
        ((alookup INFLATION_RAW_SERIES si).getD "")) current = none ∨
      plookup (buildSeriesLookup seriesData
        ((alookup INFLATION_RAW_SERIES si).getD "")) (monthsAgo current 1) = none) :
    inflEntry seriesData current (k, ⟨si, "mom", p⟩) = none := by
  unfold inflEntry
  rcases h with h | h
  · simp only [h]
  · cases hc : plookup (buildSeriesLookup seriesData
        ((alookup INFLATION_RAW_SERIES si).getD "")) current
    · simp only [hc]
    · simp only [hc, h]
      rfl

/-- C4.  Derived index-ratio inflation metrics: for the year-over-year
metric the reference is the index value 12 months before the current
period, for the month-over-month metric 1 month before, and the emitted
display value is `round(((current / reference) − 1) · 100, precision)`;
when the current or the reference value is absent from the series lookup
the metric is omitted (absent, not zero).  In particular, with current
index 326.030 and 314.852 twelve months prior, the year-over-year value at
one decimal is 3.6. -/
theorem derived_index_ratio_metrics (seriesData : List Series) (current : Period) :
    (∀ cv rv,
      plookup (buildSeriesLookup seriesData "CUSR0000SA0") current = some cv →
      plookup (buildSeriesLookup seriesData "CUSR0000SA0") (monthsAgo current 12) = some rv →
      alookup (computeInflationMetrics seriesData current) "cpi_yoy" =
        some ⟨cv, roundTo ((cv / rv - 1) * 100) 1, 1⟩) ∧
    (plookup (buildSeriesLookup seriesData "CUSR0000SA0") current = none ∨
      plookup (buildSeriesLookup seriesData "CUSR0000SA0") (monthsAgo current 12) = none →
      alookup (computeInflationMetrics seriesData current) "cpi_yoy" = none) ∧
    (∀ cv rv,
      plookup (buildSeriesLookup seriesData "CUSR0000SA0") current = some cv →
      plookup (buildSeriesLookup seriesData "CUSR0000SA0") (monthsAgo current 1) = some rv →
      alookup (computeInflationMetrics seriesData current) "cpi_mom" =
        some ⟨cv, roundTo ((cv / rv - 1) * 100) 1, 1⟩) ∧
    (plookup (buildSeriesLookup seriesData "CUSR0000SA0") current = none ∨
      plookup (buildSeriesLookup seriesData "CUSR0000SA0") (monthsAgo current 1) = none →
      alookup (computeInflationMetrics seriesData current) "cpi_mom" = none) ∧
    alookup (computeInflationMetrics exSeries ⟨2025, 9⟩) "cpi_yoy" =
      some ⟨326030/1000, 36/10, 1⟩ ∧
    roundTo ((326030/1000 / (314852/1000 : ℚ) - 1) * 100) 1 = 36/10 := by
  have hsid : (alookup INFLATION_RAW_SERIES "cpi_all_items").getD "" = "CUSR0000SA0" := by
    decide
  refine ⟨?_, ?_, ?_, ?_, by decide, by decide⟩
  · intro cv rv hc hr
    unfold computeInflationMetrics INFLATION_DERIVED_METRICS
    rw [List.filterMap_cons,
      inflEntry_yoy_some seriesData current "cpi_yoy" "cpi_all_items" 1 cv rv
        (by rwa [hsid]) (by rwa [hsid]),
      alookup, if_pos rfl]
  · intro h
    unfold computeInflationMetrics INFLATION_DERIVED_METRICS
    rw [List.filterMap_cons,
      inflEntry_yoy_none seriesData current "cpi_yoy" "cpi_all_items" 1
        (by rw [hsid]; exact h)]
    apply alookup_filterMap_ne
    intro a ha kv hkv
    have hk := inflEntry_key seriesData current a kv hkv
    rcases List.mem_cons.mp ha with rfl | ha
    · rw [hk]
      decide
    · rw [List.mem_singleton] at ha
      subst ha
      rw [hk]
      decide
  · intro cv rv hc hr
    unfold computeInflationMetrics INFLATION_DERIVED_METRICS
    rw [List.filterMap_cons]
    cases hf1 : inflEntry seriesData current ("cpi_yoy", ⟨"cpi_all_items", "yoy", 1⟩) with
    | none =>
        rw [List.filterMap_cons,
          inflEntry_mom_some seriesData current "cpi_mom" "cpi_all_items" 1 cv rv
            (by rwa [hsid]) (by rwa [hsid]),
          alookup, if_pos rfl]
    | some kv =>
        obtain ⟨k1, v1⟩ := kv
        have hk := inflEntry_key seriesData current _ _ hf1
        simp only at hk
        subst hk
        rw [alookup, if_neg (by decide),
          List.filterMap_cons,
          inflEntry_mom_some seriesData current "cpi_mom" "cpi_all_items" 1 cv rv
            (by rwa [hsid]) (by rwa [hsid]),
          alookup, if_pos rfl]
  · intro h
    unfold computeInflationMetrics INFLATION_DERIVED_METRICS
    rw [List.filterMap_cons]
    have htail : alookup (List.filterMap (inflEntry seriesData current)
        [("cpi_mom", ⟨"cpi_all_items", "mom", 1⟩), ("core_yoy", ⟨"cpi_core", "yoy", 1⟩)])
        "cpi_mom" = none := by
      rw [List.filterMap_cons,
        inflEntry_mom_none seriesData current "cpi_mom" "cpi_all_items" 1
          (by rw [hsid]; exact h)]
      apply alookup_filterMap_ne
      intro a ha kv hkv
      have hk := inflEntry_key seriesData current a kv hkv
      rw [List.mem_singleton] at ha
      subst ha
      rw [hk]
      decide
    cases hf1 : inflEntry seriesData current ("cpi_yoy", ⟨"cpi_all_items", "yoy", 1⟩) with
    | none => exact htail
    | some kv =>
        obtain ⟨k1, v1⟩ := kv
        have hk := inflEntry_key seriesData current _ _ hf1
        simp only at hk
        subst hk
        rw [alookup, if_neg (by decide)]
        exact htail

/-- Witness for C4: on the concrete two-point CPI series the year-over-year
metric is emitted with the rounded ratio and the month-over-month metric is
omitted (its prior month is absent). -/
theorem derived_index_ratio_metrics_witness :
    alookup (computeInflationMetrics exSeries ⟨2025, 9⟩) "cpi_yoy" =
      some ⟨326030/1000, roundTo ((326030/1000 / (314852/1000 : ℚ) - 1) * 100) 1, 1⟩ ∧
    alookup (computeInflationMetrics exSeries ⟨2025, 9⟩) "cpi_mom" = none :=
  ⟨(derived_index_ratio_metrics exSeries ⟨2025, 9⟩).1 (326030/1000) (314852/1000) (by decide) (by decide),
   (derived_index_ratio_metrics exSeries ⟨2025, 9⟩).2.2.2.1 (Or.inr (by decide))⟩

/-- C5.  The publish gate's signal-sentence check fails exactly when the
candidate's `headline.context` is not byte-for-byte the required sentence
(a missing or empty context also fails); on an exact match it passes with
no error; on a non-empty mismatching context the reported error carries
both the expected and the actual string. -/
theorem signal_sentence_exact_match (context : Option String) :
    ((validateSignalSentence context).valid = false ↔
      context ≠ some REQUIRED_SIGNAL_SENTENCE) ∧
    (context = some REQUIRED_SIGNAL_SENTENCE →
      validateSignalSentence context = ⟨true, none⟩) ∧
    (∀ c, context = some c → c ≠ "" → c ≠ REQUIRED_SIGNAL_SENTENCE →
      (validateSignalSentence context).error =
        some ("Signal sentence mismatch. Expected: \"" ++
          REQUIRED_SIGNAL_SENTENCE ++ "\" Got: \"" ++ c ++ "\"")) ∧
    (context = none →
      (validateSignalSentence context).error = some "Missing headline.context") := by
  cases context with
  | none =>
      refine ⟨by simp [validateSignalSentence], ?_, ?_, fun _ => rfl⟩
      · intro h
        exact absurd h (by simp)
      · intro c h
        exact absurd h (by simp)
  | some c =>
      by_cases hc : c = ""
      · subst hc
        refine ⟨?_, ?_, ?_, by simp⟩
        · simp only [validateSignalSentence, if_pos rfl]
          constructor
          · intro _ h
            rw [Option.some_inj] at h
            exact absurd h.symm (by decide)
          · intro _
            rfl
        · intro h
          rw [Option.some_inj] at h
          exact absurd h.symm (by decide)
        · intro d hd hne _
          rw [Option.some_inj] at hd
          exact absurd hd.symm hne
      · by_cases hr : c = REQUIRED_SIGNAL_SENTENCE
        · subst hr
          refine ⟨?_, fun _ => ?_, ?_, by simp⟩
          · simp [validateSignalSentence, REQUIRED_SIGNAL_SENTENCE]
          · simp [validateSignalSentence, hc]
          · intro d hd _ hne
            rw [Option.some_inj] at hd
            exact absurd hd.symm hne
        · refine ⟨?_, ?_, ?_, by simp⟩
          · simp only [validateSignalSentence, if_neg hc, if_pos hr]
            simp [hr]
          · intro h
            rw [Option.some_inj] at h
            exact absurd h hr
          · intro d hd _ _
            rw [Option.some_inj] at hd
            subst hd
            simp only [validateSignalSentence, if_neg hc, if_pos hr]

/-- Witness for C5: the exact sentence passes; a one-character deviation
fails with the expected and actual strings reported; a missing context
fails. -/
theorem signal_sentence_exact_match_witness :
    validateSignalSentence (some "Signal: decelerating and tight.") = ⟨true, none⟩ ∧
    (validateSignalSentence (some "Signal: decelerating and tight!")).error =
      some ("Signal sentence mismatch. Expected: \"" ++
        REQUIRED_SIGNAL_SENTENCE ++ "\" Got: \"" ++
        "Signal: decelerating and tight!" ++ "\"") ∧
    (validateSignalSentence none).error = some "Missing headline.context" :=
  ⟨(signal_sentence_exact_match (some "Signal: decelerating and tight.")).2.1 (by decide),
   (signal_sentence_exact_match (some "Signal: decelerating and tight!")).2.2.1
     "Signal: decelerating and tight!" rfl (by decide) (by decide),
   (signal_sentence_exact_match none).2.2.2 rfl⟩

/-- C7.  The history ledger append of `buildHistory`: appending a period
already present (by exact period-string match) returns the ledger
unchanged, so a double append equals a single append (idempotence);
appending a new period prepends its `{date, label}` entry and keeps only
the first four previous entries, so at most the 5 most recent remain,
newest first. -/
theorem history_ledger_append (prev : List HistoryEntry) (p : String) :
    buildHistory (buildHistory prev p) p = buildHistory prev p ∧
    ((∃ r ∈ prev, r.date = p) → buildHistory prev p = prev) ∧
    ((∀ r ∈ prev, r.date ≠ p) →
      buildHistory prev p = ⟨p, historyLabel p⟩ :: prev.take 4 ∧
      (buildHistory prev p).length ≤ 5 ∧
      (buildHistory prev p).head? = some ⟨p, historyLabel p⟩) := by
  have hpos : ∀ l : List HistoryEntry, l.any (fun r => r.date = p) = true →
      buildHistory l p = l := by
    intro l h
    unfold buildHistory
    rw [if_pos h]
  have hneg : ∀ l : List HistoryEntry, l.any (fun r => r.date = p) = false →
      buildHistory l p = ⟨p, historyLabel p⟩ :: l.take 4 := by
    intro l h
    unfold buildHistory
    rw [h]
    simp
  refine ⟨?_, ?_, ?_⟩
  · cases hA : prev.any (fun r => r.date = p) with
    | true => rw [hpos prev hA, hpos prev hA]
    | false =>
        rw [hneg prev hA]
        apply hpos
        simp
  · intro hmem
    apply hpos
    rw [List.any_eq_true]
    obtain ⟨r, hr, hd⟩ := hmem
    exact ⟨r, hr, by simpa using hd⟩
  · intro hall
    have hA : prev.any (fun r => r.date = p) = false := by
      rw [List.any_eq_false]
      intro r hr
      simpa using hall r hr
    refine ⟨hneg prev hA, ?_, ?_⟩
    · rw [hneg prev hA]
      have := List.length_take 4 prev
      simp only [List.length_cons]
      omega
    · rw [hneg prev hA]
      rfl

/-- Witness for C7: with five distinct periods already present, appending a
sixth keeps exactly the five most recent, newest first, and appending an
already-present period leaves the ledger unchanged. -/
theorem history_ledger_append_witness :
    buildHistory ledger5 "2026-01" =
      ⟨"2026-01", historyLabel "2026-01"⟩ :: ledger5.take 4 ∧
    (buildHistory ledger5 "2026-01").length ≤ 5 ∧
    buildHistory ledger5 "2025-12" = ledger5 :=
  ⟨((history_ledger_append ledger5 "2026-01").2.2 (by decide)).1,
   ((history_ledger_append ledger5 "2026-01").2.2 (by decide)).2.1,
   (history_ledger_append ledger5 "2025-12").2.1 (by decide)⟩


/-- C10.  Every branch of `buildHeadline` sets the context field to the
hardcoded `SIGNAL_SENTENCE`, `draftEditorial` force-writes it again, the
writer's constant is byte-identical to the reviewer's
`REQUIRED_SIGNAL_SENTENCE`, and therefore the reviewer's signal-sentence
check passes on every writer-produced candidate. -/
theorem writer_headline_context_always_signal (dataset : String)
    (normalized : NormalizedSnapshot) :
    (buildHeadline dataset normalized).context = SIGNAL_SENTENCE ∧
    (draftEditorial dataset normalized).headline.context = SIGNAL_SENTENCE ∧
    SIGNAL_SENTENCE = REQUIRED_SIGNAL_SENTENCE ∧
    validateSignalSentence (some (draftEditorial dataset normalized).headline.context) =
      ⟨true, none⟩ := by
  have hdraft : (draftEditorial dataset normalized).headline.context = SIGNAL_SENTENCE := by
    unfold draftEditorial
    rfl
  refine ⟨?_, hdraft, by decide, ?_⟩
  · unfold buildHeadline
    split
    · split
      · rfl
      · split <;> rfl
    · split
      · split
        · rfl
        · split <;> rfl
      · rfl
  · rw [hdraft]
    decide

/-- C9.  The delta-gated payrolls template: a strictly positive delta
display value yields the `increased by` form, a strictly negative one the
`declined by` form, and an absent or exactly-zero delta yields no sentence
at all; `hasValue` is false exactly on absent and zero values. -/
theorem delta_sign_selects_verb (normalized : NormalizedSnapshot) :
    (alookup normalized.deltas "payrolls" = none →
      buildPayrollsSentence normalized = none) ∧
    (∀ m, alookup normalized.deltas "payrolls" = some m → m.display_value = 0 →
      buildPayrollsSentence normalized = none) ∧
    (∀ m, alookup normalized.deltas "payrolls" = some m → 0 < m.display_value →
      buildPayrollsSentence normalized =
        some ("Nonfarm payrolls increased by " ++
          toLocaleStringEnUS |m.display_value| ++ ".")) ∧
    (∀ m, alookup normalized.deltas "payrolls" = some m → m.display_value < 0 →
      buildPayrollsSentence normalized =
        some ("Nonfarm payrolls declined by " ++
          toLocaleStringEnUS |m.display_value| ++ ".")) ∧
    hasValue none = false ∧ hasValue (some 0) = false ∧
    (∀ v : ℚ, v ≠ 0 → hasValue (some v) = true) := by
  have hform : ∀ d : ℚ, d ≠ 0 →
      formatNumber (some d) = some (toLocaleStringEnUS |d|) := by
    intro d hd
    simp [formatNumber, hasValue, hd]
  refine ⟨?_, ?_, ?_, ?_, rfl, by simp [hasValue], ?_⟩
  · intro h
    simp [buildPayrollsSentence, extractValue, h]
  · intro m hm h0
    simp [buildPayrollsSentence, extractValue, hm, h0]
  · intro m hm hpos
    simp [buildPayrollsSentence, extractValue, hm, hform m.display_value hpos.ne',
      hpos.ne', hpos]
  · intro m hm hneg
    simp [buildPayrollsSentence, extractValue, hm, hform m.display_value hneg.ne,
      hneg.ne, lt_asymm hneg]
  · intro v hv
    simp [hasValue, hv]

/-- Witness for C9: a positive delta renders the increased-by form with
comma grouping, a negative delta the declined-by form of its absolute
value, and zero or absent deltas render nothing. -/
theorem delta_sign_selects_verb_witness :
    buildPayrollsSentence (nPay 119) = some "Nonfarm payrolls increased by 119." ∧
    buildPayrollsSentence (nPay (-2000)) = some "Nonfarm payrolls declined by 2,000." ∧
    buildPayrollsSentence (nPay 0) = none ∧
    buildPayrollsSentence ⟨p0, [], [], [], []⟩ = none := by
  refine ⟨?_, ?_, ?_, ?_⟩
  · rw [(delta_sign_selects_verb (nPay 119)).2.2.1 ⟨119, 119, 0⟩ (by decide) (by decide)]
    decide
  · rw [(delta_sign_selects_verb (nPay (-2000))).2.2.2.1 ⟨-2000, -2000, 0⟩
      (by decide) (by decide)]
    decide
  · exact (delta_sign_selects_verb (nPay 0)).2.1 ⟨0, 0, 0⟩ (by decide) (by decide)
  · exact (delta_sign_selects_verb ⟨p0, [], [], [], []⟩).1 (by decide)

theorem alookup_computeDeltas_none (metrics : MetricsMap)
    (prior : List (String × ℚ)) (k : String) (h : alookup prior k = none) :
    alookup (computeDeltas metrics prior) k = none := by
  induction metrics with
  | nil => rfl
  | cons km rest ih =>
      unfold computeDeltas at ih ⊢
      rw [List.filterMap_cons]
      cases hp : alookup prior km.1 with
      | none =>
          simp only [hp, Option.map_none']
          exact ih
      | some pv =>
          simp only [hp, Option.map_some']
          rw [alookup, if_neg ?hne]
          · exact ih
          case hne =>
            intro heq
            rw [heq, h] at hp
            exact Option.noConfusion hp

/-- C6 (counterexample).  For a metric key with no prior published value
the delta is indeed absent from the normalized snapshot, but the assembled
release document is NOT free of it: `buildComparisons` renders
`comparisons.prior_release.payrolls.delta` as the number 0. -/
theorem missing_delta_rendered_zero_counterexample :
    alookup n6.deltas "payrolls" = none ∧
    alookup (buildComparisons n6 []) "payrolls" = some ⟨none, 0⟩ := by
  decide

/-- C6 (amended).  For a metric key with no prior published value, no delta
is emitted in the normalized snapshot (`computeDeltas` skips the key); the
assembled document's `comparisons.prior_release`, however, defaults the
missing delta to zero for every key of the metrics map; the delta-gated
sentence templates treat that zero as absent, so no delta sentence is
rendered for the key. -/
theorem missing_delta_absent_in_snapshot_zero_in_document
    (metrics : MetricsMap) (prior : List (String × ℚ)) (k : String)
    (normalized : NormalizedSnapshot) (em : List (String × Option ℚ)) :
    (alookup prior k = none → alookup (computeDeltas metrics prior) k = none) ∧
    (∀ m, alookup normalized.metrics k = some m →
      alookup normalized.deltas k = none →
      alookup (buildComparisons normalized em) k =
        some ⟨(alookup em k).getD none, 0⟩) ∧
    (alookup normalized.deltas "payrolls" = none →
      buildPayrollsSentence normalized = none) := by
  refine ⟨alookup_computeDeltas_none metrics prior k, ?_, ?_⟩
  · intro m hm hd
    unfold buildComparisons
    rw [alookup_map_pair normalized.metrics
      (fun key _ =>
        ({ value := (alookup em key).getD none
           delta :=
             match alookup normalized.deltas key with
             | none => 0
             | some d => d.display_value } : PriorEntry)) k]
    rw [hm, Option.map_some', hd]
  · intro h
    simp [buildPayrollsSentence, extractValue, h]

/-- Witness for the amended C6 on concrete inputs: a key with no prior
value has no snapshot delta, renders delta 0 in the assembled document,
and produces no payrolls sentence. -/
theorem missing_delta_absent_in_snapshot_zero_in_document_witness :
    alookup (computeDeltas ms0 []) "m" = none ∧
    alookup (buildComparisons n6 []) "payrolls" = some ⟨none, 0⟩ ∧
    buildPayrollsSentence n6 = none :=
  ⟨(missing_delta_absent_in_snapshot_zero_in_document ms0 [] "m" n6 []).1 (by decide),
   (missing_delta_absent_in_snapshot_zero_in_document ms0 [] "payrolls" n6 []).2.1
     ⟨150000, 150000, 0⟩ (by decide) (by decide),
   (missing_delta_absent_in_snapshot_zero_in_document ms0 [] "payrolls" n6 []).2.2
     (by decide)⟩

/-- C8.  The publish-gate linter: the error list is empty exactly when no
critical pattern (em-dash, semicolon, exclamation mark) occurs in the
audited text; each occurring critical pattern contributes its itemized
message with its occurrence count; the gate's linter check fails exactly
when some critical pattern occurs, so a candidate with only soft-listed
warning words is not failed; each occurring warning pattern contributes an
itemized warning. -/
theorem linter_hard_fail_soft_warn (candidate : CandidateText) :
    ((runLinter candidate).errors = [] ↔
      ∀ pn ∈ CRITICAL_PATTERNS, countChar (extractTextFields candidate) pn.1 = 0) ∧
    (∀ pn ∈ CRITICAL_PATTERNS, 0 < countChar (extractTextFields candidate) pn.1 →
      criticalMessage (countChar (extractTextFields candidate) pn.1) pn.2 ∈
        (runLinter candidate).errors) ∧
    ((∀ pn ∈ CRITICAL_PATTERNS, countChar (extractTextFields candidate) pn.1 = 0) →
      linterFails candidate = false) ∧
    (linterFails candidate = true ↔
      ∃ pn ∈ CRITICAL_PATTERNS, 0 < countChar (extractTextFields candidate) pn.1) ∧
    (∀ pn ∈ WARNING_PATTERNS,
      0 < (pn.1.map (countWord (extractTextFields candidate))).sum →
      warningMessage ((pn.1.map (countWord (extractTextFields candidate))).sum) pn.2 ∈
        (runLinter candidate).warnings) := by
  have herr : (runLinter candidate).errors = [] ↔
      ∀ pn ∈ CRITICAL_PATTERNS, countChar (extractTextFields candidate) pn.1 = 0 := by
    unfold runLinter
    rw [List.filterMap_eq_nil_iff]
    constructor
    · intro h pn hmem
      have := h pn hmem
      by_contra hne
      rw [if_pos (Nat.pos_of_ne_zero hne)] at this
      exact Option.noConfusion this
    · intro h pn hmem
      rw [if_neg]
      rw [h pn hmem]
      exact lt_irrefl 0
  refine ⟨herr, ?_, ?_, ?_, ?_⟩
  · intro pn hmem hk
    unfold runLinter
    exact List.mem_filterMap.mpr ⟨pn, hmem, by rw [if_pos hk]⟩
  · intro h
    unfold linterFails
    rw [herr.mpr h]
    rfl
  · constructor
    · intro hf
      by_contra hno
      push_neg at hno
      have hz : ∀ pn ∈ CRITICAL_PATTERNS,
          countChar (extractTextFields candidate) pn.1 = 0 :=
        fun pn h => Nat.le_zero.mp (hno pn h)
      unfold linterFails at hf
      rw [herr.mpr hz] at hf
      exact absurd hf (by decide)
    · rintro ⟨pn, hmem, hk⟩
      have hmsg : criticalMessage (countChar (extractTextFields candidate) pn.1) pn.2 ∈
          (runLinter candidate).errors :=
        List.mem_filterMap.mpr ⟨pn, hmem, by rw [if_pos hk]⟩
      cases herrs : (runLinter candidate).errors with
      | nil =>
          rw [herrs] at hmsg
          cases hmsg
      | cons a l =>
          unfold linterFails
          rw [herrs]
          rfl
  · intro pn hmem hk
    unfold runLinter
    exact List.mem_filterMap.mpr ⟨pn, hmem, by rw [if_pos hk]⟩

/-- Witness for C8: a candidate with only soft-listed words passes the
linter with itemized warnings, while a candidate with an em-dash fails
with the itemized error. -/
theorem linter_hard_fail_soft_warn_witness :
    (runLinter softCandidate).errors = [] ∧
    linterFails softCandidate = false ∧
    warningMessage 1 "Furthermore" ∈ (runLinter softCandidate).warnings ∧
    warningMessage 1 "robust" ∈ (runLinter softCandidate).warnings ∧
    criticalMessage 1 "em-dash" ∈ (runLinter hardCandidate).errors ∧
    linterFails hardCandidate = true := by
  refine ⟨(linter_hard_fail_soft_warn softCandidate).1.mpr (by decide),
    (linter_hard_fail_soft_warn softCandidate).2.2.1 (by decide), ?_, ?_, ?_,
    (linter_hard_fail_soft_warn hardCandidate).2.2.2.1.mpr
      ⟨('—', "em-dash"), by decide, by decide⟩⟩
  · have h := (linter_hard_fail_soft_warn softCandidate).2.2.2.2
      (["Furthermore"], "Furthermore") (by decide) (by decide)
    have hc : ((["Furthermore"].map (countWord (extractTextFields softCandidate))).sum) = 1 := by
      decide
    rw [hc] at h
    exact h
  · have h := (linter_hard_fail_soft_warn softCandidate).2.2.2.2
      (["robust"], "robust") (by decide) (by decide)
    have hc : ((["robust"].map (countWord (extractTextFields softCandidate))).sum) = 1 := by
      decide
    rw [hc] at h
    exact h
  · have h := (linter_hard_fail_soft_warn hardCandidate).2.1
      ('—', "em-dash") (by decide) (by decide)
    have hc : countChar (extractTextFields hardCandidate) '—' = 1 := by
      decide
    rw [hc] at h
    exact h

end RTD
